import Mathlib

/-!
Verification of the Label3D demo conversion scripts.

This file gives a shallow embedding of the core conversion logic of the
repository and proves the specification claims about it:

* `demos/l3d2coco.py` — decoding of the (marker, camera, axis, frame)
  keypoint tensor and the (marker, camera, frame) status tensor into COCO
  keypoint triplets, bounding boxes, areas, and identifier assignment
  (`l3d_to_coco`).
* `demos/multical2label3d.py` — pose resolution (`get_extrinsics`,
  `get_extrinsics_json`), distortion splitting (`extract_distortion`),
  and the per-camera export record (rotation transpose, millimetre
  translation, intrinsic re-layout).
* `demos/prepare_label3d_poses.py` — the population of the status tensor
  in the pose-preparation pipeline.

Machine floats of the Python source are modelled as rationals; a float
that may be NaN is modelled by the type `FloatQ` below.  Python `round`
(round half to even) is modelled by `pyRound`.
-/

namespace Label3D

/-- Python `round` on a rational: round to the nearest integer, ties to
even.  Written with integer arithmetic only (`q.num / q.den` is `⌊q⌋`,
and `2 * (q.num - ⌊q⌋ * q.den)` compares the fractional part against
`1/2`) so that the kernel can evaluate it. -/
def pyRound (q : ℚ) : ℤ :=
  let f : ℤ := q.num / (q.den : ℤ)
  let m : ℤ := 2 * (q.num - f * (q.den : ℤ))
  if m < (q.den : ℤ) then f
  else if (q.den : ℤ) < m then f + 1
  else if f % 2 = 0 then f else f + 1

/-- A float value as stored in the keypoint tensor: either NaN or a real
(rational) value. -/
inductive FloatQ where
  | nan : FloatQ
  | val : ℚ → FloatQ
deriving DecidableEq, Repr

/-- Label3D status enum (`l3d2coco.py` lines 223–227):
unlabeled = 0, initialized = 1, labeled = 2, invisible = 3. -/
def L3D_STATUS_UNLABELED : ℕ := 0
def L3D_STATUS_INITIALIZED : ℕ := 1
def L3D_STATUS_LABELED : ℕ := 2
def L3D_STATUS_INVISIBLE : ℕ := 3

/-- One iteration of the `for kpt_i in range(num_base_keypoints)` loop of
`l3d_to_coco` (`l3d2coco.py` lines 283–311): decode the keypoint at
canonical joint position `kptI` of one (frame, camera, animal-instance)
slice into a COCO `(x, y, v)` triplet.

`kps` and `sts` are the per-instance slices
`all_cam_points_2d[start:end, cam, :, frame]` and
`status[start:end, cam, frame]` (length `kpa = keypoints_per_animal`);
`w`/`h` are `img_width`/`img_height`. -/
def decodeJoint (kptI kpa : ℕ) (kps : List (FloatQ × FloatQ))
    (sts : List ℕ) (w h : ℤ) : ℤ × ℤ × ℕ :=
  -- x, y, v = 0, 0, 0  (defaults)
  if kptI < kpa then
    match kps.get? kptI, sts.get? kptI with
    | some (xq, yq), some stv =>
      match xq, yq with
      | FloatQ.val xr, FloatQ.val yr =>
        -- x, y = int(round(x_l3d)), int(round(y_l3d))
        let x : ℤ := pyRound xr
        let y : ℤ := pyRound yr
        let v : ℕ :=
          if x < 0 ∨ y < 0 ∨ w ≤ x ∨ h ≤ y then 0
          else if stv = L3D_STATUS_INVISIBLE then 1
          else if stv = L3D_STATUS_INITIALIZED ∨ stv = L3D_STATUS_LABELED then 2
          else 0
        (x, y, v)
      | _, _ => (0, 0, 0)      -- NaN coordinate: v stays 0
    | _, _ => (0, 0, 0)        -- kpt_i out of bounds for instance data
  else (0, 0, 0)               -- canonical joint beyond keypoints_per_animal

/-- The decoded keypoint list of one instance: the whole
`for kpt_i in range(num_base_keypoints)` loop. -/
def decodeInstance (numBase kpa : ℕ) (kps : List (FloatQ × FloatQ))
    (sts : List ℕ) (w h : ℤ) : List (ℤ × ℤ × ℕ) :=
  (List.range numBase).map (fun i => decodeJoint i kpa kps sts w h)

/-- The body of one COCO annotation (`l3d2coco.py` lines 355–364) minus
the two identifiers, which the traversal assigns.  The flattened
`[x, y, v, ...]` layout of the JSON output is kept here as a list of
triplets. -/
structure AnnBody where
  area : ℤ
  bbox : List ℤ
  numKeypoints : ℕ
  keypoints : List (ℤ × ℤ × ℕ)
deriving DecidableEq, Repr

/-- `num_labeled_kps_for_instance`: the number of decoded triplets with
`v > 0` (`l3d2coco.py` lines 312–313). -/
def labeledCount (kps : List (ℤ × ℤ × ℕ)) : ℕ :=
  (kps.filter (fun t => 0 < t.2.2)).length

/-- The triplets contributing to `visible_xs`/`visible_ys`:
exactly those with `v == 2` (`l3d2coco.py` lines 314–316). -/
def visiblePts (kps : List (ℤ × ℤ × ℕ)) : List (ℤ × ℤ × ℕ) :=
  kps.filter (fun t => t.2.2 = 2)

/-- `bbox_float` (`l3d2coco.py` lines 336–350).  The Python code computes
it in floats, but every value involved is an integer (the keypoint
coordinates were produced by `int(round(...))`), so the clipping chain is
integer arithmetic cast to ℚ. -/
def bboxFloat (visXs visYs : List ℤ) (w h : ℤ) : List ℚ :=
  match visXs, visYs with
  | x :: xs, y :: ys =>
    let minXf : ℤ := xs.foldl min x        -- float(min(visible_xs))
    let maxXf : ℤ := xs.foldl max x
    let minYf : ℤ := ys.foldl min y
    let maxYf : ℤ := ys.foldl max y
    let minXc : ℤ := max 0 minXf           -- max(0.0, min_x_f)
    let minYc : ℤ := max 0 minYf
    let maxXc : ℤ := min (w - 1) maxXf     -- min(float(img_width-1), max_x_f)
    let maxYc : ℤ := min (h - 1) maxYf
    let bw : ℤ := max 0 (maxXc - minXc)    -- max(0.0, ...)
    let bh : ℤ := max 0 (maxYc - minYc)
    [(minXc : ℚ), (minYc : ℚ), (bw : ℚ), (bh : ℚ)]
  | _, _ => [0, 0, 0, 0]                   -- default if no visible points

/-- The per-instance annotation construction of `l3d_to_coco`
(`l3d2coco.py` lines 276–364): count `v > 0` points, skip the instance
when there are no `v == 2` points and the count is zero, otherwise build
bbox (rounded per component) and area (product of the rounded box). -/
def buildAnn (kps : List (ℤ × ℤ × ℕ)) (w h : ℤ) : Option AnnBody :=
  let numLabeled := labeledCount kps
  let visXs := (visiblePts kps).map (fun t => t.1)
  let visYs := (visiblePts kps).map (fun t => t.2.1)
  -- if not visible_xs: if num_labeled_kps_for_instance == 0: continue
  if visXs = [] ∧ numLabeled = 0 then none
  else
    let bbF := bboxFloat visXs visYs w h
    let bbox := bbF.map pyRound            -- [int(round(c)) for c in bbox_float]
    let area := bbox.getD 2 0 * bbox.getD 3 0   -- float(bbox_coco[2] * bbox_coco[3])
    some { area := area, bbox := bbox, numKeypoints := numLabeled,
           keypoints := kps }

/-- Fatal configuration errors of `l3d_to_coco`. -/
inductive ConvError where
  | notDivisible (markers animals : ℕ) : ConvError
deriving DecidableEq, Repr

/-- The `keypoints_per_animal` configuration logic of `l3d_to_coco`
(`l3d2coco.py` lines 167–185).  Returns the possibly-adjusted animal
count and `keypoints_per_animal`, or the fatal divisibility error. -/
def configKpa (numTotalMarkers nAnimals numBaseKeypoints : ℕ) :
    Except ConvError (ℕ × ℕ) :=
  if numTotalMarkers = 0 ∧ 0 < nAnimals then
    -- warning: assume keypoints_per_animal from base skeleton
    Except.ok (nAnimals, numBaseKeypoints)
  else if nAnimals = 0 ∧ 0 < numTotalMarkers then
    -- warning: assume 1 animal
    Except.ok (1, numTotalMarkers)
  else if nAnimals = 0 ∧ numTotalMarkers = 0 then
    Except.ok (0, 0)
  else if numTotalMarkers % nAnimals ≠ 0 then
    Except.error (ConvError.notDivisible numTotalMarkers nAnimals)
  else
    Except.ok (nAnimals, numTotalMarkers / nAnimals)

/-- The in-memory inputs of the `l3d_to_coco` traversal.  The dense
tensors are modelled as index functions; `imageSize` returns the
`[height, width]` row of `imageSize_l3d` for a camera. -/
structure L3DInput where
  camPoints : ℕ → ℕ → ℕ → FloatQ × FloatQ   -- marker, camera, frame
  statusT : ℕ → ℕ → ℕ → ℕ                   -- marker, camera, frame
  imageSize : ℕ → ℤ × ℤ                     -- camera ↦ (height, width)
  numMarkers : ℕ
  numCams : ℕ
  numFrames : ℕ
  nAnimalsInSession : ℕ
  numBaseKeypoints : ℕ

/-- One record of the output `images` list.  (`file_name` is a string
formatted from the camera name and frame label and carries no verified
claim; it is elided.) -/
structure ImageRec where
  id : ℕ
  width : ℤ
  height : ℤ
deriving DecidableEq, Repr

/-- One record of the output `annotations` list. -/
structure AnnRec where
  id : ℕ
  imageId : ℕ
  body : AnnBody
deriving DecidableEq, Repr

/-- The mutable traversal state of `l3d_to_coco`: the two counters and
the two output lists. -/
structure ConvState where
  imgCounter : ℕ
  annCounter : ℕ
  images : List ImageRec
  anns : List AnnRec
deriving DecidableEq, Repr

/-- The per-instance keypoint slice
`all_cam_points_2d[start:end, cam_idx, :, frame_s_idx]`. -/
def instanceSlice (inp : L3DInput) (kpa a cam f : ℕ) :
    List (FloatQ × FloatQ) :=
  (List.range kpa).map (fun k => inp.camPoints (a * kpa + k) cam f)

/-- The per-instance status slice
`status[start:end, cam_idx, frame_s_idx]`. -/
def instanceStatusSlice (inp : L3DInput) (kpa a cam f : ℕ) : List ℕ :=
  (List.range kpa).map (fun k => inp.statusT (a * kpa + k) cam f)

/-- One animal-instance iteration of `l3d_to_coco` (`l3d2coco.py` lines
253–331): the two skip guards, then the decode and annotation build.
Returns `none` when the instance is skipped. -/
def processInstance (inp : L3DInput) (kpa f cam a : ℕ) : Option AnnBody :=
  -- if marker_end_idx > num_total_markers: continue
  if inp.numMarkers < (a + 1) * kpa then none
  -- if not (marker_start < marker_end <= shape[0] and cam < shape[1]
  --         and frame < shape[3]): continue
  else if ¬(a * kpa < (a + 1) * kpa ∧ (a + 1) * kpa ≤ inp.numMarkers ∧
      cam < inp.numCams ∧ f < inp.numFrames) then none
  else
    let hgt := (inp.imageSize cam).1
    let wdt := (inp.imageSize cam).2
    buildAnn
      (decodeInstance inp.numBaseKeypoints kpa (instanceSlice inp kpa a cam f)
        (instanceStatusSlice inp kpa a cam f) wdt hgt) wdt hgt

/-- Folding step over animal instances: a skipped instance leaves the
state unchanged; an emitted annotation increments `annotation_id_counter`
and appends a record carrying the fresh identifier. -/
def instProcStep (inp : L3DInput) (kpa imgId f cam : ℕ) (t : ConvState)
    (a : ℕ) : ConvState :=
  match processInstance inp kpa f cam a with
  | none => t
  | some body =>
    { t with annCounter := t.annCounter + 1,
             anns := t.anns ++
               [{ id := t.annCounter + 1, imageId := imgId, body := body }] }

/-- One camera iteration of `l3d_to_coco` (`l3d2coco.py` lines 235–331):
increment `image_id_counter` (to `s.imgCounter + 1`), append the image
record carrying that identifier and the camera's width/height, then loop
over animal instances (an empty loop when `n_animals_in_session == 0`). -/
def camStep (inp : L3DInput) (nAnimals kpa f : ℕ) (s : ConvState)
    (cam : ℕ) : ConvState :=
  (List.range nAnimals).foldl (instProcStep inp kpa (s.imgCounter + 1) f cam)
    { s with imgCounter := s.imgCounter + 1,
             images := s.images ++
               [{ id := s.imgCounter + 1, width := (inp.imageSize cam).2,
                  height := (inp.imageSize cam).1 }] }

/-- One frame iteration: the inner loop over cameras. -/
def frameStep (inp : L3DInput) (nAnimals kpa : ℕ) (s : ConvState)
    (f : ℕ) : ConvState :=
  (List.range inp.numCams).foldl (camStep inp nAnimals kpa f) s

/-- Both counters start at zero and both output lists start empty. -/
def initState : ConvState :=
  { imgCounter := 0, annCounter := 0, images := [], anns := [] }

/-- The full nested traversal of `l3d_to_coco` (`l3d2coco.py` lines
232–364): frames outer, cameras inner, instances innermost. -/
def runConversion (inp : L3DInput) (nAnimals kpa : ℕ) : ConvState :=
  (List.range inp.numFrames).foldl (frameStep inp nAnimals kpa) initState

/-- `l3d_to_coco` as a whole: the configuration check runs before the
traversal, so a fatal configuration error yields no records at all. -/
def l3d_to_coco (inp : L3DInput) : Except ConvError ConvState :=
  match configKpa inp.numMarkers inp.nAnimalsInSession inp.numBaseKeypoints with
  | Except.error e => Except.error e
  | Except.ok (na, kpa) => Except.ok (runConversion inp na kpa)

/-- The identifier invariant maintained by the traversal: each counter
equals the length of its output list, and each output list carries the
consecutive identifiers `1, 2, ..., length` in order. -/
def StateInv (s : ConvState) : Prop :=
  s.imgCounter = s.images.length ∧ s.annCounter = s.anns.length ∧
  s.images.map (fun r => r.id) = List.range' 1 s.images.length ∧
  s.anns.map (fun r => r.id) = List.range' 1 s.anns.length

/-! ### Concrete inputs used by witnesses -/

/-- The 3-joint scenario of the spec: joint 0 at (10,10) LABELED, joint 1
at (-5,20) out of bounds, joint 2 unlabeled at the origin. -/
def kpsW : List (ℤ × ℤ × ℕ) := [(10, 10, 2), (-5, 20, 0), (0, 0, 0)]

/-- The annotation record `buildAnn` produces for `kpsW` in a 100×100
image. -/
def recW : AnnBody :=
  { area := 0, bbox := [10, 10, 0, 0], numKeypoints := 1, keypoints := kpsW }

/-- A small concrete traversal input: one frame, two cameras, one animal
with one marker, the single point at (5,5) with status LABELED. -/
def inpW : L3DInput :=
  { camPoints := fun _ _ _ => (FloatQ.val 5, FloatQ.val 5)
    statusT := fun _ _ _ => 2
    imageSize := fun _ => (10, 10)
    numMarkers := 1
    numCams := 2
    numFrames := 1
    nAnimalsInSession := 1
    numBaseKeypoints := 1 }

/-- A configuration whose marker count (6) is not divisible by its
animal count (4). -/
def inpBad : L3DInput :=
  { inpW with numMarkers := 6, nAnimalsInSession := 4 }

/-- A valid configuration: 6 markers, 3 animals. -/
def inpGood : L3DInput :=
  { inpW with numMarkers := 6, nAnimalsInSession := 3 }

/-! ### multical2label3d.py: pose resolution, distortion, camera export -/

/-- A pose entry `{R: 3x3, T: 3}` of the `camera_poses` table.  The
numeric payload is carried as nested lists, exactly as the Python code
passes it through. -/
structure Pose where
  R : List (List ℚ)
  T : List ℚ
deriving DecidableEq, Repr

/-- The warnings `get_extrinsics`/`get_extrinsics_json` may print. -/
inductive PoseWarning where
  | refPoseNotIdentity
  | refPoseMissing
  | directPoseForNonRef
deriving DecidableEq, Repr

/-- `np.identity(3)` / the hard-coded identity fallback
(multical2label3d.py line 32). -/
def identity3 : List (List ℚ) := [[1, 0, 0], [0, 1, 0], [0, 0, 1]]

/-- `[0.0, 0.0, 0.0]` (line 33). -/
def zero3 : List ℚ := [0, 0, 0]

/-- `np.isclose` on scalars with `atol = POSE_TOLERANCE = 1e-6` and the
numpy default `rtol = 1e-5`: `|x - y| ≤ atol + rtol * |y|`. -/
def iscloseQ (x y : ℚ) : Bool :=
  |x - y| ≤ 1/1000000 + (1/100000) * |y|

/-- `np.allclose` on 3-vectors. -/
def allcloseV (a b : List ℚ) : Bool :=
  a.length == b.length && (a.zip b).all (fun p => iscloseQ p.1 p.2)

/-- `np.allclose` on 3×3 matrices. -/
def allcloseM (a b : List (List ℚ)) : Bool :=
  a.length == b.length && (a.zip b).all (fun p => allcloseV p.1 p.2)

/-- The shared reference-camera branch of both resolution functions
(multical2label3d.py lines 20–33 and 193–203): use the stored pose if
present (warning when it is not close to identity/zero), else default to
identity with a warning. -/
def refPoseLookup (pose_data : List (String × Pose)) (ref_cam : String) :
    Pose × List PoseWarning :=
  match pose_data.lookup ref_cam with
  | some p =>
    if !allcloseM p.R identity3 || !allcloseV p.T zero3 then
      (p, [PoseWarning.refPoseNotIdentity])
    else (p, [])
  | none => ({ R := identity3, T := zero3 }, [PoseWarning.refPoseMissing])

/-- The relative-key lookup shared by both resolution functions (lines
44–48 and 211–215): `"{cam}_to_{ref}"` resolves to the stored pose
verbatim, a missing key is a `KeyError` (`errSuffix` distinguishes the
two functions' messages). -/
def relPoseLookup (pose_data : List (String × Pose))
    (cam_name ref_cam errSuffix : String) :
    Except String (Pose × List PoseWarning) :=
  match pose_data.lookup (cam_name ++ "_to_" ++ ref_cam) with
  | some p => Except.ok (p, [])
  | none =>
    Except.error ("Could not find world-to-camera pose key " ++
      cam_name ++ "_to_" ++ ref_cam ++ errSuffix)

/-- `get_extrinsics` (multical2label3d.py lines 13–49): resolve the
world-to-camera pose of `cam_name` against reference `ref_cam` from the
pose table (an association list modelling the Python dict).  A direct
entry for a non-reference camera is returned immediately with a
warning; otherwise the relative key is consulted. -/
def get_extrinsics (pose_data : List (String × Pose))
    (cam_name ref_cam : String) : Except String (Pose × List PoseWarning) :=
  if cam_name = ref_cam then Except.ok (refPoseLookup pose_data ref_cam)
  else
    match pose_data.lookup cam_name with
    | some p => Except.ok (p, [PoseWarning.directPoseForNonRef])
    | none => relPoseLookup pose_data cam_name ref_cam
        " in camera_poses dictionary."

/-- Whether `pat` occurs as a contiguous run inside the second list. -/
def listInfix (pat : List Char) : List Char → Bool
  | [] => pat.isPrefixOf []
  | c :: cs => pat.isPrefixOf (c :: cs) || listInfix pat cs

/-- Substring test `'_to_' in cam_name`. -/
def containsToSub (s : String) : Bool :=
  listInfix "_to_".toList s.toList

/-- `get_extrinsics_json` (multical2label3d.py lines 186–216): as
`get_extrinsics`, but the direct entry is only used when the camera name
does not itself contain `"_to_"`; otherwise control falls through to the
relative-key lookup. -/
def get_extrinsics_json (pose_data : List (String × Pose))
    (cam_name ref_cam : String) : Except String (Pose × List PoseWarning) :=
  if cam_name = ref_cam then Except.ok (refPoseLookup pose_data ref_cam)
  else
    match pose_data.lookup cam_name with
    | some p =>
      if containsToSub cam_name then
        relPoseLookup pose_data cam_name ref_cam
          " in JSON camera_poses dictionary."
      else Except.ok (p, [PoseWarning.directPoseForNonRef])
    | none => relPoseLookup pose_data cam_name ref_cam
        " in JSON camera_poses dictionary."

/-- The two input shapes `extract_distortion` accepts: a numpy array
(used flattened) or a nested Python list (first row used). -/
inductive DistInput where
  | flat : List ℚ → DistInput
  | nested : List (List ℚ) → DistInput
deriving DecidableEq, Repr

/-- The index/padding core of `extract_distortion`
(multical2label3d.py lines 70–83) on the normalized flat sequence:
radial from source indices {0,1,4}, tangential from {2,3}, both padded
with 0.0 to fixed length, plus the two warning flags
(`coeffs_len < 2` for radial, `coeffs_len < 4` for tangential). -/
def splitCoeffs (coeffs : List ℚ) : List ℚ × List ℚ × Bool × Bool :=
  let len := coeffs.length
  let kIndices : List ℕ := [0, 1, 4]
  let kPresent :=
    (kIndices.filter (fun i => i < len)).map (fun i => coeffs.getD i 0)
  let radial := kPresent ++ List.replicate (kIndices.length - kPresent.length) 0
  let pIndices : List ℕ := [2, 3]
  let pPresent :=
    (pIndices.filter (fun i => i < len)).map (fun i => coeffs.getD i 0)
  let tangential :=
    pPresent ++ List.replicate (pIndices.length - pPresent.length) 0
  (radial, tangential, decide (len < 2), decide (len < 4))

/-- `extract_distortion` (multical2label3d.py lines 51–85): normalize
the input to a flat sequence (ndarray: flatten; nonempty nested list:
first row) or raise `ValueError`, then split. -/
def extract_distortion (d : DistInput) :
    Except String (List ℚ × List ℚ × Bool × Bool) :=
  match d with
  | DistInput.flat coeffs => Except.ok (splitCoeffs coeffs)
  | DistInput.nested [] =>
    Except.error ("Unexpected format for distortion coefficients.")
  | DistInput.nested (row :: _) => Except.ok (splitCoeffs row)

/-- The per-camera `.mat` payload built by `main`
(multical2label3d.py lines 381–400), restricted to the three matrix
fields the claims concern. -/
structure MatExport where
  K : Matrix (Fin 3) (Fin 3) ℚ
  r : Matrix (Fin 3) (Fin 3) ℚ
  t : Matrix (Fin 1) (Fin 3) ℚ

/-- Lines 381–400 of `main`: `r = R_w_cam.T`;
`t = (T_w_cam.reshape(3,1) * 1000.0).T` (a 1×3 row in millimetres);
`K_label3d = [[fx,0,0],[0,fy,0],[cx,cy,1]]` from the original
`fx = K[0,0], fy = K[1,1], cx = K[0,2], cy = K[1,2]`. -/
def exportCamera (Korig R : Matrix (Fin 3) (Fin 3) ℚ) (T : Fin 3 → ℚ) :
    MatExport :=
  { K := Matrix.of ![![Korig 0 0, 0, 0], ![0, Korig 1 1, 0],
                     ![Korig 0 2, Korig 1 2, 1]]
    r := R.transpose
    t := (Matrix.of (fun i _ => T i * 1000) :
      Matrix (Fin 3) (Fin 1) ℚ).transpose }

/-- Pose table used by the C2 counterexample and witnesses: camera A has
both a direct entry and a relative entry toward reference R, with
different payloads. -/
def poseDirect : Pose := { R := [[2, 0, 0], [0, 2, 0], [0, 0, 2]], T := [1, 2, 3] }
def poseRelative : Pose := { R := identity3, T := [4, 5, 6] }
def poseTableBoth : List (String × Pose) :=
  [("A", poseDirect), ("A_to_R", poseRelative)]

/-! ### prepare_label3d_poses.py: status-tensor population -/

/-- One pose instance of a camera-results JSON: the slot index resolved
from `instance_id_to_slot_idx_map` (`none` when the instance id is not
in the global list), and the keypoint/score lists.  Keypoint entries
model `[x, y]` pairs whose components may be JSON `null`. -/
structure PrepInstance where
  slot : Option ℕ
  keypoints : List (Option ℚ × Option ℚ)
  scores : List ℚ

/-- One frame entry: the dense frame index resolved from
`frame_id_to_mat_idx_map` (`none` when the frame id is unresolvable or
not in the global list), and its instances. -/
structure PrepFrame where
  matFrameIdx : Option ℕ
  instances : List PrepInstance

/-- One camera's JSON content (video or image flavour; both iterate the
same frame entries). -/
structure PrepCam where
  frames : List PrepFrame

/-- The two dense output arrays, as index functions
(marker, camera, frame). -/
structure PrepState where
  points : ℕ → ℕ → ℕ → FloatQ × FloatQ
  statusArr : ℕ → ℕ → ℕ → ℕ

/-- `np.full(..., np.nan)` and `np.zeros(...)`
(prepare_label3d_poses.py lines 161–169). -/
def prepInit : PrepState :=
  { points := fun _ _ _ => (FloatQ.nan, FloatQ.nan)
    statusArr := fun _ _ _ => 0 }

/-- The single write of the population loop (lines 228–229): store the
point and status value 1 (`Initialized`) at one
(marker, camera, frame) cell. -/
def prepWrite (st : PrepState) (m c f : ℕ) (px py : ℚ) : PrepState :=
  { points := fun m' c' f' =>
      if m' = m ∧ c' = c ∧ f' = f then (FloatQ.val px, FloatQ.val py)
      else st.points m' c' f'
    statusArr := fun m' c' f' =>
      if m' = m ∧ c' = c ∧ f' = f then 1 else st.statusArr m' c' f' }

/-- One joint iteration (lines 218–231): score lookup with threshold
default, threshold test and null test, then the conditional write.
(The Python `float()` conversion cannot fail on numeric JSON values, so
the `except` path is never taken in this model.) -/
def prepJointStep (thr : ℚ) (markerOffset camIdx frameIdx : ℕ)
    (inst : PrepInstance) (st : PrepState) (jointIdx : ℕ) : PrepState :=
  match inst.keypoints.get? jointIdx with
  | none => st
  | some (ox, oy) =>
    let score :=
      if inst.scores ≠ [] ∧ jointIdx < inst.scores.length
        then inst.scores.getD jointIdx 0 else thr
    if thr ≤ score then
      match ox, oy with
      | some px, some py =>
        prepWrite st (markerOffset + jointIdx) camIdx frameIdx px py
      | _, _ => st
    else st

/-- One instance iteration (lines 204–231): slot lookup, the
keypoint/score length guards, then the joint loop with
`marker_offset = slot * num_keypoints_per_instance`. -/
def prepInstStep (thr : ℚ) (numKpts camIdx frameIdx : ℕ) (st : PrepState)
    (inst : PrepInstance) : PrepState :=
  match inst.slot with
  | none => st
  | some slotIdx =>
    if inst.keypoints.length = numKpts ∧
        (inst.scores = [] ∨ inst.scores.length = numKpts) then
      (List.range numKpts).foldl
        (prepJointStep thr (slotIdx * numKpts) camIdx frameIdx inst) st
    else st

/-- One frame iteration (lines 186–231): skipped when the frame id does
not resolve. -/
def prepFrameStep (thr : ℚ) (numKpts camIdx : ℕ) (st : PrepState)
    (fr : PrepFrame) : PrepState :=
  match fr.matFrameIdx with
  | none => st
  | some frameIdx =>
    fr.instances.foldl (prepInstStep thr numKpts camIdx frameIdx) st

/-- The camera loop (lines 172–231), cameras enumerated with their
index. -/
def prepCamStep (thr : ℚ) (numKpts : ℕ) (st : PrepState)
    (ic : ℕ × PrepCam) : PrepState :=
  ic.2.frames.foldl (prepFrameStep thr numKpts ic.1) st

/-- The whole population pipeline of `main` (lines 161–231): both arrays
start at NaN/zero, then the nested loops perform conditional writes of
status 1. -/
def runPrepare (thr : ℚ) (numKpts : ℕ) (cams : List PrepCam) : PrepState :=
  (cams.enum).foldl (prepCamStep thr numKpts) prepInit

/-- The status-tensor invariant of C10: every cell is 0 or 1. -/
def StatusOk (st : PrepState) : Prop :=
  ∀ m c f, st.statusArr m c f = 0 ∨ st.statusArr m c f = 1

/-! ### Generic lemmas about `pyRound` and the traversal folds -/

/-- `pyRound` is round-half-to-even: it returns `⌊q⌋` when the
fractional part is below `1/2`, `⌊q⌋ + 1` when above, and the even
neighbour on a tie. -/
theorem pyRound_eq_half_even (q : ℚ) :
    pyRound q =
      (if q - (⌊q⌋ : ℚ) < 1/2 then ⌊q⌋
       else if 1/2 < q - (⌊q⌋ : ℚ) then ⌊q⌋ + 1
       else if ⌊q⌋ % 2 = 0 then ⌊q⌋ else ⌊q⌋ + 1) := by
  have hden : (0 : ℚ) < (q.den : ℚ) := by exact_mod_cast q.den_pos
  have hden0 : (q.den : ℚ) ≠ 0 := ne_of_gt hden
  have hnum : (q.num : ℚ) = q * (q.den : ℚ) :=
    (div_eq_iff hden0).mp (Rat.num_div_den q)
  have hcast : ∀ a b : ℤ, (a < b) ↔ ((a : ℚ) < (b : ℚ)) :=
    fun a b => Int.cast_lt.symm
  have h1 : (2 * (q.num - ⌊q⌋ * (q.den : ℤ)) < (q.den : ℤ)) ↔
      (q - (⌊q⌋ : ℚ) < 1/2) := by
    rw [hcast]
    push_cast
    rw [hnum]
    constructor <;> intro h <;> nlinarith [hden]
  have h2 : ((q.den : ℤ) < 2 * (q.num - ⌊q⌋ * (q.den : ℤ))) ↔
      (1/2 < q - (⌊q⌋ : ℚ)) := by
    rw [hcast]
    push_cast
    rw [hnum]
    constructor <;> intro h <;> nlinarith [hden]
  have hf : q.num / (q.den : ℤ) = ⌊q⌋ := Rat.floor_def.symm
  simp only [pyRound]
  rw [hf]
  simp only [h1, h2]

/-- Rounding an integer-valued rational is the identity. -/
theorem pyRound_intCast (n : ℤ) : pyRound (n : ℚ) = n := by
  unfold pyRound
  simp [Rat.num_intCast, Rat.den_intCast]

/-! ### C1 -/

/-- **C1.** For a decoded keypoint at canonical joint position `i`:
if `i ≥ keypoints_per_animal` or either raw coordinate is NaN the
emitted triplet is `(0,0,0)`; otherwise, with `x`, `y` the raw
coordinates rounded to nearest integer, the triplet carries those
rounded coordinates, the visibility is `0` whenever
`x<0 ∨ y<0 ∨ x≥image_w ∨ y≥image_h` regardless of the status code, and
only for in-bounds points is it derived from status: `1` for
INVISIBLE (3), `2` for INITIALIZED (1) or LABELED (2), `0` for
UNLABELED (0). -/
theorem C1_keypoint_visibility (i kpa : ℕ) (kps : List (FloatQ × FloatQ))
    (sts : List ℕ) (w h : ℤ) :
    (kpa ≤ i → decodeJoint i kpa kps sts w h = (0, 0, 0)) ∧
    (∀ yq, kps.get? i = some (FloatQ.nan, yq) →
      decodeJoint i kpa kps sts w h = (0, 0, 0)) ∧
    (∀ xq, kps.get? i = some (xq, FloatQ.nan) →
      decodeJoint i kpa kps sts w h = (0, 0, 0)) ∧
    (∀ xr yr stv, i < kpa →
      kps.get? i = some (FloatQ.val xr, FloatQ.val yr) →
      sts.get? i = some stv →
      (decodeJoint i kpa kps sts w h).1 = pyRound xr ∧
      (decodeJoint i kpa kps sts w h).2.1 = pyRound yr ∧
      ((pyRound xr < 0 ∨ pyRound yr < 0 ∨ w ≤ pyRound xr ∨ h ≤ pyRound yr) →
        (decodeJoint i kpa kps sts w h).2.2 = 0) ∧
      (¬(pyRound xr < 0 ∨ pyRound yr < 0 ∨ w ≤ pyRound xr ∨ h ≤ pyRound yr) →
        (stv = 3 → (decodeJoint i kpa kps sts w h).2.2 = 1) ∧
        (stv = 1 ∨ stv = 2 → (decodeJoint i kpa kps sts w h).2.2 = 2) ∧
        (stv = 0 → (decodeJoint i kpa kps sts w h).2.2 = 0))) := by
  refine ⟨?_, ?_, ?_, ?_⟩
  · intro hge
    simp [decodeJoint, Nat.not_lt.mpr hge]
  · intro yq hk
    unfold decodeJoint
    by_cases hlt : i < kpa
    · simp only [if_pos hlt, hk]
      cases sts.get? i <;> simp
    · simp [hlt]
  · intro xq hk
    unfold decodeJoint
    by_cases hlt : i < kpa
    · simp only [if_pos hlt, hk]
      cases sts.get? i <;> cases xq <;> simp
    · simp [hlt]
  · intro xr yr stv hlt hk hs
    have hd : decodeJoint i kpa kps sts w h =
        (pyRound xr, pyRound yr,
          if pyRound xr < 0 ∨ pyRound yr < 0 ∨ w ≤ pyRound xr ∨ h ≤ pyRound yr
            then 0
          else if stv = L3D_STATUS_INVISIBLE then 1
          else if stv = L3D_STATUS_INITIALIZED ∨ stv = L3D_STATUS_LABELED
            then 2
          else 0) := by
      unfold decodeJoint
      rw [if_pos hlt, hk, hs]
    rw [hd]
    by_cases hob : pyRound xr < 0 ∨ pyRound yr < 0 ∨ w ≤ pyRound xr ∨ h ≤ pyRound yr
    · exact ⟨rfl, rfl, fun _ => by simp [hob], fun hc => absurd hob hc⟩
    · refine ⟨rfl, rfl, fun hc => absurd hc hob, fun _ => ⟨?_, ?_, ?_⟩⟩
      · intro h3
        simp [hob, h3, L3D_STATUS_INVISIBLE]
      · rintro (h1 | h2)
        · simp [hob, h1, L3D_STATUS_INVISIBLE, L3D_STATUS_INITIALIZED]
        · simp [hob, h2, L3D_STATUS_INVISIBLE, L3D_STATUS_INITIALIZED,
            L3D_STATUS_LABELED]
      · intro h0
        simp [hob, h0, L3D_STATUS_INVISIBLE, L3D_STATUS_INITIALIZED,
          L3D_STATUS_LABELED]

/-- Witness for `C1_keypoint_visibility` at concrete inputs: a 100×100
image, one keypoint per animal; an in-bounds LABELED point gets `v = 2`,
and an out-of-image point keeps `v = 0` even though its status is
LABELED. -/
theorem C1_keypoint_visibility_witness :
    (decodeJoint 0 1 [(FloatQ.val 10, FloatQ.val 10)] [2] 100 100).2.2 = 2 ∧
    (decodeJoint 0 1 [(FloatQ.val (-5), FloatQ.val 20)] [2] 100 100).2.2 = 0 := by
  constructor
  · exact (((C1_keypoint_visibility 0 1 [(FloatQ.val 10, FloatQ.val 10)]
      [2] 100 100).2.2.2 10 10 2 (by decide) rfl rfl).2.2.2
        (by decide)).2.1 (Or.inr rfl)
  · exact ((C1_keypoint_visibility 0 1 [(FloatQ.val (-5), FloatQ.val 20)]
      [2] 100 100).2.2.2 (-5) 20 2 (by decide) rfl rfl).2.2.1 (by decide)

/-! ### C3 -/

/-- If no decoded triplet has `v > 0` then none has `v == 2`. -/
theorem visiblePts_nil_of_no_labeled (kps : List (ℤ × ℤ × ℕ))
    (h : labeledCount kps = 0) : visiblePts kps = [] := by
  unfold labeledCount at h
  rw [List.length_eq_zero, List.filter_eq_nil_iff] at h
  unfold visiblePts
  rw [List.filter_eq_nil_iff]
  intro t ht
  have hv := h t ht
  simp only [decide_eq_true_eq] at hv ⊢
  omega

/-- **C3.** An annotation record is emitted for an instance iff at least
one of its decoded keypoint triplets has `v > 0`; when emitted, its
`num_keypoints` field equals the number of triplets with `v > 0`; and a
skipped instance leaves the traversal state unchanged (it contributes no
record). -/
theorem C3_emit_iff_labeled (kps : List (ℤ × ℤ × ℕ)) (w h : ℤ) :
    ((buildAnn kps w h).isSome ↔ 0 < labeledCount kps) ∧
    (∀ rec, buildAnn kps w h = some rec →
      rec.numKeypoints = labeledCount kps) ∧
    (∀ inp kpa imgId f cam a t, processInstance inp kpa f cam a = none →
      instProcStep inp kpa imgId f cam t a = t) := by
  refine ⟨?_, ?_, ?_⟩
  · unfold buildAnn
    by_cases h0 : labeledCount kps = 0
    · have hnil : visiblePts kps = [] := visiblePts_nil_of_no_labeled kps h0
      simp [hnil, h0]
    · simp [h0, Nat.pos_of_ne_zero h0]
  · intro rec hrec
    simp only [buildAnn] at hrec
    split at hrec
    · exact Option.noConfusion hrec
    · rw [Option.some.injEq] at hrec
      subst hrec
      rfl
  · intro inp kpa imgId f cam a t hnone
    unfold instProcStep
    rw [hnone]

/-- Witness for `C3_emit_iff_labeled`: the concrete instance `kpsW` has
one labeled point, is emitted with `num_keypoints = 1`; a skipped
instance (here: `keypoints_per_animal = 0`, so the slice-validity guard
fails) leaves the initial state unchanged. -/
theorem C3_emit_iff_labeled_witness :
    buildAnn kpsW 100 100 = some recW ∧
    recW.numKeypoints = labeledCount kpsW ∧
    instProcStep inpW 0 1 0 0 initState 0 = initState := by
  refine ⟨by decide, ?_, ?_⟩
  · exact (C3_emit_iff_labeled kpsW 100 100).2.1 recW (by decide)
  · exact (C3_emit_iff_labeled kpsW 100 100).2.2 inpW 0 1 0 0 0 initState
      (by decide)

/-! ### C4 -/

/-- **C4.** For every emitted annotation record: the bounding box is the
per-component rounding of the float box computed from only the `v == 2`
keypoints (min/max of their coordinates, minima clipped at 0, maxima at
`image_w - 1`/`image_h - 1`, width and height floored at 0); if no
`v == 2` point exists the box is `[0,0,0,0]`; and the area is the
integer product `bbox.w * bbox.h` of the rounded box. -/
theorem C4_bbox_area (kps : List (ℤ × ℤ × ℕ)) (w h : ℤ) (rec : AnnBody)
    (hrec : buildAnn kps w h = some rec) :
    rec.area = rec.bbox.getD 2 0 * rec.bbox.getD 3 0 ∧
    rec.bbox = (bboxFloat ((visiblePts kps).map (fun t => t.1))
      ((visiblePts kps).map (fun t => t.2.1)) w h).map pyRound ∧
    (visiblePts kps = [] → rec.bbox = [0, 0, 0, 0]) ∧
    (∀ mnx mxx mny mxy,
      ((visiblePts kps).map (fun t => t.1)).min? = some mnx →
      ((visiblePts kps).map (fun t => t.1)).max? = some mxx →
      ((visiblePts kps).map (fun t => t.2.1)).min? = some mny →
      ((visiblePts kps).map (fun t => t.2.1)).max? = some mxy →
      rec.bbox = [max 0 mnx, max 0 mny,
        max 0 (min (w - 1) mxx - max 0 mnx),
        max 0 (min (h - 1) mxy - max 0 mny)]) := by
  simp only [buildAnn] at hrec
  split at hrec
  · exact Option.noConfusion hrec
  · rw [Option.some.injEq] at hrec
    subst hrec
    refine ⟨rfl, rfl, ?_, ?_⟩
    · intro hnil
      rw [hnil]
      simp only [List.map_nil]
      have hb : bboxFloat [] [] w h = [0, 0, 0, 0] := rfl
      rw [hb]
      decide
    · intro mnx mxx mny mxy hmnx hmxx hmny hmxy
      cases hxs : (visiblePts kps).map (fun t => t.1) with
      | nil =>
        rw [hxs] at hmnx
        exact absurd hmnx (by simp)
      | cons x xt =>
        cases hys : (visiblePts kps).map (fun t => t.2.1) with
        | nil =>
          rw [hys] at hmny
          exact absurd hmny (by simp)
        | cons y yt =>
          rw [hxs] at hmnx hmxx
          rw [hys] at hmny hmxy
          have exn : xt.foldl min x = mnx := Option.some.inj hmnx
          have exx : xt.foldl max x = mxx := Option.some.inj hmxx
          have eyn : yt.foldl min y = mny := Option.some.inj hmny
          have eyx : yt.foldl max y = mxy := Option.some.inj hmxy
          subst exn exx eyn eyx
          simp only [bboxFloat, List.map_cons, List.map_nil, pyRound_intCast]

/-- Witness for `C4_bbox_area` at the spec scenario `kpsW` in a 100×100
image: only the `v = 2` point (10,10) contributes, giving bbox
`[10,10,0,0]` and area 0. -/
theorem C4_bbox_area_witness :
    buildAnn kpsW 100 100 = some recW ∧
    recW.area = recW.bbox.getD 2 0 * recW.bbox.getD 3 0 ∧
    recW.bbox = [10, 10, 0, 0] := by
  have hmain := C4_bbox_area kpsW 100 100 recW (by decide)
  refine ⟨by decide, hmain.1, ?_⟩
  have h4 := hmain.2.2.2 10 10 10 10 (by decide) (by decide) (by decide)
    (by decide)
  rw [h4]
  decide

/-! ### C5 -/

/-- **C5 counterexample.** A configuration with zero markers and two
animals is accepted (with `keypoints_per_animal` taken from the base
skeleton, here 17), yet `keypoints_per_animal * animal_count = 34 ≠ 0 =
total_markers`: the product invariant does not hold for every
configuration the code accepts. -/
theorem C5_counterexample :
    configKpa 0 2 17 = Except.ok (2, 17) ∧ ¬(17 * 2 = 0) :=
  ⟨rfl, by decide⟩

/-- **C5 (amended).** When `num_total_markers > 0` and
`n_animals_in_session > 0` and the markers are not evenly divisible by
the animal count, `l3d_to_coco` fails with the fatal divisibility error
before any image or annotation record is built (the error output carries
no records); and for every accepted configuration with
`num_total_markers > 0`, `keypoints_per_animal * animal_count =
total_markers` holds for the possibly-adjusted animal count. -/
theorem C5_divisibility (inp : L3DInput) :
    (0 < inp.numMarkers → 0 < inp.nAnimalsInSession →
      inp.numMarkers % inp.nAnimalsInSession ≠ 0 →
      l3d_to_coco inp =
        Except.error (ConvError.notDivisible inp.numMarkers
          inp.nAnimalsInSession)) ∧
    (∀ na kpa, 0 < inp.numMarkers →
      configKpa inp.numMarkers inp.nAnimalsInSession inp.numBaseKeypoints =
        Except.ok (na, kpa) →
      kpa * na = inp.numMarkers) := by
  constructor
  · intro hm ha hdiv
    unfold l3d_to_coco configKpa
    rw [if_neg (by omega), if_neg (by omega), if_neg (by omega),
      if_pos hdiv]
  · intro na kpa hm hcfg
    unfold configKpa at hcfg
    split_ifs at hcfg with h1 h2 h3 h4
    all_goals first
      | omega
      | exact Except.noConfusion hcfg
      | (simp only [Except.ok.injEq, Prod.mk.injEq] at hcfg
         obtain ⟨hna, hkpa⟩ := hcfg
         subst hna hkpa
         first
           | omega
           | exact Nat.div_mul_cancel (Nat.dvd_of_mod_eq_zero (by omega)))

/-- Witness for `C5_divisibility`: 6 markers with 4 animals abort with
the divisibility error; 6 markers with 3 animals are accepted and
`2 * 3 = 6`. -/
theorem C5_divisibility_witness :
    l3d_to_coco inpBad = Except.error (ConvError.notDivisible 6 4) ∧
    2 * 3 = inpGood.numMarkers :=
  ⟨(C5_divisibility inpBad).1 (by decide) (by decide) (by decide),
   (C5_divisibility inpGood).2 3 2 (by decide) rfl⟩

/-! ### C9 -/

theorem range'_one_concat (n : ℕ) :
    List.range' 1 (n + 1) = List.range' 1 n ++ [n + 1] := by
  have hc := @List.range'_concat 1 1 n
  simpa [Nat.add_comm] using hc

/-- A skipped or emitted instance never touches the image list or the
image counter. -/
theorem instProcStep_images (inp : L3DInput) (kpa imgId f cam : ℕ)
    (t : ConvState) (a : ℕ) :
    (instProcStep inp kpa imgId f cam t a).images = t.images ∧
    (instProcStep inp kpa imgId f cam t a).imgCounter = t.imgCounter := by
  unfold instProcStep
  cases processInstance inp kpa f cam a <;> exact ⟨rfl, rfl⟩

/-- One instance step preserves the identifier invariant: an emitted
annotation receives identifier `annCounter + 1` and extends the
consecutive run. -/
theorem instProcStep_inv (inp : L3DInput) (kpa imgId f cam : ℕ)
    (t : ConvState) (a : ℕ) (ht : StateInv t) :
    StateInv (instProcStep inp kpa imgId f cam t a) := by
  obtain ⟨h1, h2, h3, h4⟩ := ht
  unfold instProcStep
  cases processInstance inp kpa f cam a with
  | none => exact ⟨h1, h2, h3, h4⟩
  | some body =>
    refine ⟨h1, by simp [h2], h3, ?_⟩
    simp only [List.map_append, List.map_cons, List.map_nil,
      List.length_append, List.length_cons, List.length_nil]
    rw [h4, h2]
    have hr := range'_one_concat t.anns.length
    rw [Nat.zero_add]
    exact hr.symm ▸ rfl

/-- Folding instance steps over any instance list preserves the
invariant and the image data. -/
theorem foldl_instProcStep_inv (inp : L3DInput) (kpa imgId f cam : ℕ)
    (l : List ℕ) :
    ∀ t : ConvState, StateInv t →
      StateInv (l.foldl (instProcStep inp kpa imgId f cam) t) ∧
      (l.foldl (instProcStep inp kpa imgId f cam) t).images = t.images ∧
      (l.foldl (instProcStep inp kpa imgId f cam) t).imgCounter =
        t.imgCounter := by
  induction l with
  | nil => exact fun t ht => ⟨ht, rfl, rfl⟩
  | cons x xs ih =>
    intro t ht
    have hstep := instProcStep_inv inp kpa imgId f cam t x ht
    have himg := instProcStep_images inp kpa imgId f cam t x
    obtain ⟨ha, hb, hc⟩ := ih (instProcStep inp kpa imgId f cam t x) hstep
    exact ⟨ha, hb.trans himg.1, hc.trans himg.2⟩

/-- One camera step preserves the invariant and grows the image list by
exactly one record. -/
theorem camStep_inv (inp : L3DInput) (nAnimals kpa f : ℕ) (s : ConvState)
    (cam : ℕ) (hs : StateInv s) :
    StateInv (camStep inp nAnimals kpa f s cam) ∧
    (camStep inp nAnimals kpa f s cam).images.length =
      s.images.length + 1 := by
  obtain ⟨h1, h2, h3, h4⟩ := hs
  have hs1 : StateInv
      { s with imgCounter := s.imgCounter + 1,
               images := s.images ++
                 [{ id := s.imgCounter + 1, width := (inp.imageSize cam).2,
                    height := (inp.imageSize cam).1 }] } := by
    refine ⟨by simp [h1], h2, ?_, h4⟩
    simp only [List.map_append, List.map_cons, List.map_nil,
      List.length_append, List.length_cons, List.length_nil]
    rw [h3, h1, Nat.zero_add]
    exact (range'_one_concat s.images.length).symm ▸ rfl
  have hfold := foldl_instProcStep_inv inp kpa (s.imgCounter + 1) f cam
    (List.range nAnimals) _ hs1
  unfold camStep
  refine ⟨hfold.1, ?_⟩
  rw [hfold.2.1]
  simp

/-- Folding camera steps preserves the invariant and grows the image
list by the number of cameras visited. -/
theorem foldl_camStep_inv (inp : L3DInput) (nAnimals kpa f : ℕ)
    (l : List ℕ) :
    ∀ s : ConvState, StateInv s →
      StateInv (l.foldl (camStep inp nAnimals kpa f) s) ∧
      (l.foldl (camStep inp nAnimals kpa f) s).images.length =
        s.images.length + l.length := by
  induction l with
  | nil => exact fun s hs => ⟨hs, rfl⟩
  | cons x xs ih =>
    intro s hs
    have hstep := camStep_inv inp nAnimals kpa f s x hs
    obtain ⟨ha, hb⟩ := ih (camStep inp nAnimals kpa f s x) hstep.1
    refine ⟨ha, ?_⟩
    show (List.foldl (camStep inp nAnimals kpa f)
      (camStep inp nAnimals kpa f s x) xs).images.length = _
    rw [hb, hstep.2, List.length_cons]
    omega

/-- Folding frame steps preserves the invariant; each frame adds
`numCams` images. -/
theorem foldl_frameStep_inv (inp : L3DInput) (nAnimals kpa : ℕ)
    (l : List ℕ) :
    ∀ s : ConvState, StateInv s →
      StateInv (l.foldl (frameStep inp nAnimals kpa) s) ∧
      (l.foldl (frameStep inp nAnimals kpa) s).images.length =
        s.images.length + l.length * inp.numCams := by
  induction l with
  | nil => exact fun s hs => ⟨hs, by simp⟩
  | cons x xs ih =>
    intro s hs
    have hstep := foldl_camStep_inv inp nAnimals kpa x
      (List.range inp.numCams) s hs
    obtain ⟨ha, hb⟩ := ih (frameStep inp nAnimals kpa s x) hstep.1
    refine ⟨ha, ?_⟩
    show (List.foldl (frameStep inp nAnimals kpa)
      (frameStep inp nAnimals kpa s x) xs).images.length = _
    rw [hb, List.length_cons]
    have hcam : (frameStep inp nAnimals kpa s x).images.length =
        s.images.length + inp.numCams := by
      unfold frameStep
      rw [hstep.2, List.length_range]
    rw [hcam]
    ring

/-- The whole traversal satisfies the invariant and visits exactly
`numFrames * numCams` (frame, camera) pairs. -/
theorem runConversion_inv (inp : L3DInput) (nAnimals kpa : ℕ) :
    StateInv (runConversion inp nAnimals kpa) ∧
    (runConversion inp nAnimals kpa).images.length =
      inp.numFrames * inp.numCams := by
  have hinit : StateInv initState := ⟨rfl, rfl, rfl, rfl⟩
  have h := foldl_frameStep_inv inp nAnimals kpa
    (List.range inp.numFrames) initState hinit
  unfold runConversion
  refine ⟨h.1, ?_⟩
  rw [h.2]
  simp [initState, List.length_range]

/-- **C9.** Image identifiers are assigned by a counter that increments
once per (frame, camera) pair in nested traversal order, so the image
record at position `i * numCams + j` (the j-th camera of the i-th frame)
carries identifier `i * numCams + j + 1`; and annotation identifiers
increment once per emitted record, so the annotation list carries the
consecutive identifiers `1, 2, ...` in output order with no gaps. -/
theorem C9_identifier_assignment (inp : L3DInput) (nAnimals kpa i j : ℕ)
    (hi : i < inp.numFrames) (hj : j < inp.numCams) :
    ((runConversion inp nAnimals kpa).images.get?
        (i * inp.numCams + j)).map (fun r => r.id) =
      some (i * inp.numCams + j + 1) ∧
    (runConversion inp nAnimals kpa).anns.map (fun r => r.id) =
      List.range' 1 (runConversion inp nAnimals kpa).anns.length := by
  obtain ⟨⟨h1, h2, h3, h4⟩, hlen⟩ := runConversion_inv inp nAnimals kpa
  refine ⟨?_, h4⟩
  have hk : i * inp.numCams + j <
      (runConversion inp nAnimals kpa).images.length := by
    rw [hlen]
    calc i * inp.numCams + j < i * inp.numCams + inp.numCams := by omega
      _ = (i + 1) * inp.numCams := by ring
      _ ≤ inp.numFrames * inp.numCams :=
          Nat.mul_le_mul_right inp.numCams (by omega)
  rw [List.get?_eq_getElem?, ← List.getElem?_map, h3,
    List.getElem?_range' 1 1 hk]
  simp [Nat.add_comm]

/-- Witness for `C9_identifier_assignment` on the concrete input `inpW`
(1 frame, 2 cameras): the second image record has identifier 2, and the
annotation identifiers are consecutive from 1. -/
theorem C9_identifier_assignment_witness :
    ((runConversion inpW 1 1).images.get? 1).map (fun r => r.id) =
      some 2 ∧
    (runConversion inpW 1 1).anns.map (fun r => r.id) =
      List.range' 1 (runConversion inpW 1 1).anns.length := by
  have h := C9_identifier_assignment inpW 1 1 0 1 (by decide) (by decide)
  simpa using h

/-! ### C2 -/

/-- **C2 counterexample.** With both the direct entry "A" and the
relative key "A_to_R" present in the table (with different stored
poses), `get_extrinsics` returns the direct entry's (R,T) with a
warning — it does not use the relative key's stored (R,T), so the
direct entry is preferred, not a mere fallback. -/
theorem C2_counterexample :
    get_extrinsics poseTableBoth "A" "R" =
      Except.ok (poseDirect, [PoseWarning.directPoseForNonRef]) ∧
    poseTableBoth.lookup ("A" ++ "_to_" ++ "R") = some poseRelative ∧
    poseDirect ≠ poseRelative :=
  ⟨rfl, rfl, by decide⟩

/-- **C2 (amended).** For a non-reference camera with a direct absolute
entry in the pose table, `get_extrinsics` returns that entry with a
warning regardless of whether the relative key is also present;
`get_extrinsics_json` does the same provided the camera name does not
itself contain `"_to_"`.  The relative key is consulted only when the
direct entry is absent (or, for the JSON variant, when the name contains
`"_to_"`). -/
theorem C2_direct_preferred (pt : List (String × Pose))
    (cam ref : String) (p : Pose) (hne : cam ≠ ref)
    (hd : pt.lookup cam = some p) :
    get_extrinsics pt cam ref =
      Except.ok (p, [PoseWarning.directPoseForNonRef]) ∧
    (containsToSub cam = false →
      get_extrinsics_json pt cam ref =
        Except.ok (p, [PoseWarning.directPoseForNonRef])) := by
  constructor
  · unfold get_extrinsics
    rw [if_neg hne, hd]
  · intro hsub
    unfold get_extrinsics_json
    rw [if_neg hne, hd, hsub]
    rfl

/-- Witness for `C2_direct_preferred` on the concrete table with both
keys present: both resolution functions return the direct pose. -/
theorem C2_direct_preferred_witness :
    get_extrinsics poseTableBoth "A" "R" =
      Except.ok (poseDirect, [PoseWarning.directPoseForNonRef]) ∧
    get_extrinsics_json poseTableBoth "A" "R" =
      Except.ok (poseDirect, [PoseWarning.directPoseForNonRef]) := by
  have h := C2_direct_preferred poseTableBoth "A" "R" poseDirect
    (by decide) rfl
  exact ⟨h.1, h.2 rfl⟩

/-! ### C8 -/

/-- **C8.** For a non-reference camera whose name is not itself a key in
the pose table: if the relative key `"{cam}_to_{ref}"` is absent, both
resolution functions raise the lookup error (fatal, never defaulted);
if it is present, both return exactly the stored (R,T), unmodified and
without warnings. -/
theorem C8_relative_lookup (pt : List (String × Pose)) (cam ref : String)
    (hne : cam ≠ ref) (hd : pt.lookup cam = none) :
    (pt.lookup (cam ++ "_to_" ++ ref) = none →
      get_extrinsics pt cam ref =
        Except.error ("Could not find world-to-camera pose key " ++
          cam ++ "_to_" ++ ref ++ " in camera_poses dictionary.") ∧
      get_extrinsics_json pt cam ref =
        Except.error ("Could not find world-to-camera pose key " ++
          cam ++ "_to_" ++ ref ++ " in JSON camera_poses dictionary.")) ∧
    (∀ p, pt.lookup (cam ++ "_to_" ++ ref) = some p →
      get_extrinsics pt cam ref = Except.ok (p, []) ∧
      get_extrinsics_json pt cam ref = Except.ok (p, [])) := by
  constructor
  · intro hrel
    constructor
    · unfold get_extrinsics relPoseLookup
      rw [if_neg hne, hd, hrel]
    · unfold get_extrinsics_json relPoseLookup
      rw [if_neg hne, hd, hrel]
  · intro p hrel
    constructor
    · unfold get_extrinsics relPoseLookup
      rw [if_neg hne, hd, hrel]
    · unfold get_extrinsics_json relPoseLookup
      rw [if_neg hne, hd, hrel]

/-- Witness for `C8_relative_lookup`: camera "B" has no direct entry in
the table; its relative key "B_to_R" is absent, so resolution errors;
after adding ("B_to_R", poseRelative), resolution returns exactly that
pose. -/
theorem C8_relative_lookup_witness :
    get_extrinsics poseTableBoth "B" "R" =
      Except.error ("Could not find world-to-camera pose key " ++
        "B" ++ "_to_" ++ "R" ++ " in camera_poses dictionary.") ∧
    get_extrinsics (poseTableBoth ++ [("B_to_R", poseRelative)]) "B" "R" =
      Except.ok (poseRelative, []) := by
  constructor
  · exact (((C8_relative_lookup poseTableBoth "B" "R" (by decide) rfl).1)
      rfl).1
  · exact (((C8_relative_lookup (poseTableBoth ++ [("B_to_R", poseRelative)])
      "B" "R" (by decide) rfl).2) poseRelative rfl).1

/-! ### C6 -/

/-- `splitCoeffs` in closed form: the radial values are the sequence
values at indices 0, 1, 4 and the tangential values those at 2, 3, with
`List.getD _ _ 0` substituting 0 beyond the input length, and the
warning flags are exactly the length tests. -/
theorem splitCoeffs_eq (coeffs : List ℚ) :
    splitCoeffs coeffs =
      ([coeffs.getD 0 0, coeffs.getD 1 0, coeffs.getD 4 0],
       [coeffs.getD 2 0, coeffs.getD 3 0],
       decide (coeffs.length < 2), decide (coeffs.length < 4)) :=
  match coeffs with
  | [] => rfl
  | [_] => rfl
  | [_, _] => rfl
  | [_, _, _] => rfl
  | [_, _, _, _] => rfl
  | a :: b :: c :: d :: e :: rest => by
    have h0 : 0 < (a :: b :: c :: d :: e :: rest).length := by
      simp only [List.length_cons]
      omega
    have h1 : 1 < (a :: b :: c :: d :: e :: rest).length := by
      simp only [List.length_cons]
      omega
    have h2 : 2 < (a :: b :: c :: d :: e :: rest).length := by
      simp only [List.length_cons]
      omega
    have h3 : 3 < (a :: b :: c :: d :: e :: rest).length := by
      simp only [List.length_cons]
      omega
    have h4 : 4 < (a :: b :: c :: d :: e :: rest).length := by
      simp only [List.length_cons]
      omega
    simp [splitCoeffs, h0, h1, h2, h3, h4]

/-- **C6.** For a flat input or a singly-nested one-row input (both
normalizing to the same flat sequence), `extract_distortion` returns
radial = the values at flattened indices {0,1,4} and tangential = the
values at {2,3}, substituting 0.0 for any index beyond the input length,
and records a warning exactly when fewer than 2 (radial) or 4
(tangential) coefficients are present.  In particular
`[k1,k2,p1,p2,k3]` gives radial `[k1,k2,k3]`, tangential `[p1,p2]`, and
`[k1,k2]` gives radial `[k1,k2,0]`, tangential `[0,0]` with the
tangential warning set. -/
theorem C6_split_distortion (coeffs : List ℚ) :
    extract_distortion (DistInput.flat coeffs) =
      Except.ok ([coeffs.getD 0 0, coeffs.getD 1 0, coeffs.getD 4 0],
        [coeffs.getD 2 0, coeffs.getD 3 0],
        decide (coeffs.length < 2), decide (coeffs.length < 4)) ∧
    extract_distortion (DistInput.nested [coeffs]) =
      extract_distortion (DistInput.flat coeffs) ∧
    (∀ k1 k2 p1 p2 k3 : ℚ,
      extract_distortion (DistInput.flat [k1, k2, p1, p2, k3]) =
        Except.ok ([k1, k2, k3], [p1, p2], false, false)) ∧
    (∀ k1 k2 : ℚ,
      extract_distortion (DistInput.flat [k1, k2]) =
        Except.ok ([k1, k2, 0], [0, 0], false, true)) := by
  refine ⟨?_, rfl, ?_, ?_⟩
  · simp [extract_distortion, splitCoeffs_eq]
  · intro k1 k2 p1 p2 k3
    simp [extract_distortion, splitCoeffs_eq]
  · intro k1 k2
    simp [extract_distortion, splitCoeffs_eq]

/-! ### C7 -/

/-- **C7.** For every exported camera record: the output rotation is the
transpose of the input world-to-camera rotation; the output translation
is the input (metres) multiplied by exactly 1000 and laid out as a 1×3
row; and from an original intrinsic `[[fx,0,cx],[0,fy,cy],[0,0,1]]` the
output intrinsic is exactly `[[fx,0,0],[0,fy,0],[cx,cy,1]]` — a pure
re-arrangement of the same four values. -/
theorem C7_export_convention (Korig R : Matrix (Fin 3) (Fin 3) ℚ)
    (T : Fin 3 → ℚ) :
    (∀ i j, (exportCamera Korig R T).r i j = R j i) ∧
    (∀ j, (exportCamera Korig R T).t 0 j = T j * 1000) ∧
    (∀ fx fy cx cy : ℚ,
      (exportCamera (Matrix.of ![![fx, 0, cx], ![0, fy, cy], ![0, 0, 1]])
          R T).K =
        Matrix.of ![![fx, 0, 0], ![0, fy, 0], ![cx, cy, 1]]) := by
  refine ⟨fun i j => rfl, fun j => rfl, fun fx fy cx cy => ?_⟩
  ext i j
  fin_cases i <;> fin_cases j <;> simp [exportCamera]

/-! ### C10 -/

/-- Any fold preserves a state predicate its step preserves. -/
theorem foldl_preserve {α β : Type} (P : β → Prop) (g : β → α → β)
    (hg : ∀ s a, P s → P (g s a)) (l : List α) :
    ∀ s, P s → P (l.foldl g s) := by
  induction l with
  | nil => exact fun s hs => hs
  | cons x xs ih => exact fun s hs => ih (g s x) (hg s x hs)

/-- The single write of the population loop stores 1, so it preserves
the 0-or-1 invariant. -/
theorem prepWrite_statusOk (st : PrepState) (m c f : ℕ) (px py : ℚ)
    (h : StatusOk st) : StatusOk (prepWrite st m c f px py) := by
  intro m' c' f'
  unfold prepWrite
  by_cases hc : m' = m ∧ c' = c ∧ f' = f
  · simp [hc]
  · simpa [hc] using h m' c' f'

theorem prepJointStep_statusOk (thr : ℚ) (mo ci fi : ℕ)
    (inst : PrepInstance) (st : PrepState) (j : ℕ) (h : StatusOk st) :
    StatusOk (prepJointStep thr mo ci fi inst st j) := by
  cases hk : inst.keypoints.get? j with
  | none =>
    simp only [prepJointStep, hk]
    exact h
  | some p =>
    obtain ⟨ox, oy⟩ := p
    simp only [prepJointStep, hk]
    by_cases hs : thr ≤ (if inst.scores ≠ [] ∧ j < inst.scores.length
        then inst.scores.getD j 0 else thr)
    · rw [if_pos hs]
      cases ox <;> cases oy <;>
        first
          | exact h
          | exact prepWrite_statusOk st _ ci fi _ _ h
    · rw [if_neg hs]
      exact h

theorem prepInstStep_statusOk (thr : ℚ) (numKpts ci fi : ℕ)
    (st : PrepState) (inst : PrepInstance) (h : StatusOk st) :
    StatusOk (prepInstStep thr numKpts ci fi st inst) := by
  cases hsl : inst.slot with
  | none =>
    simp only [prepInstStep, hsl]
    exact h
  | some slotIdx =>
    simp only [prepInstStep, hsl]
    split
    · exact foldl_preserve StatusOk
        (prepJointStep thr (slotIdx * numKpts) ci fi inst)
        (fun s a hs => prepJointStep_statusOk thr (slotIdx * numKpts)
          ci fi inst s a hs)
        (List.range numKpts) st h
    · exact h

theorem prepFrameStep_statusOk (thr : ℚ) (numKpts ci : ℕ)
    (st : PrepState) (fr : PrepFrame) (h : StatusOk st) :
    StatusOk (prepFrameStep thr numKpts ci st fr) := by
  cases hf : fr.matFrameIdx with
  | none =>
    simp only [prepFrameStep, hf]
    exact h
  | some fi =>
    simp only [prepFrameStep, hf]
    exact foldl_preserve StatusOk (prepInstStep thr numKpts ci fi)
      (fun s a hs => prepInstStep_statusOk thr numKpts ci fi s a hs)
      fr.instances st h

theorem prepCamStep_statusOk (thr : ℚ) (numKpts : ℕ) (st : PrepState)
    (ic : ℕ × PrepCam) (h : StatusOk st) :
    StatusOk (prepCamStep thr numKpts st ic) := by
  unfold prepCamStep
  exact foldl_preserve StatusOk (prepFrameStep thr numKpts ic.1)
    (fun s a hs => prepFrameStep_statusOk thr numKpts ic.1 s a hs)
    ic.2.frames st h

/-- **C10.** Every entry of the status tensor produced by the
pose-preparation pipeline is 0 (UNLABELED) or 1 (INITIALIZED): the
tensor is initialized to all zeros and the only write stores 1, so
LABELED (2) and INVISIBLE (3) never appear in prepared pose output. -/
theorem C10_status_zero_or_one (thr : ℚ) (numKpts : ℕ)
    (cams : List PrepCam) (m c f : ℕ) :
    ((runPrepare thr numKpts cams).statusArr m c f = 0 ∨
     (runPrepare thr numKpts cams).statusArr m c f = 1) ∧
    (runPrepare thr numKpts cams).statusArr m c f ≠ L3D_STATUS_LABELED ∧
    (runPrepare thr numKpts cams).statusArr m c f ≠ L3D_STATUS_INVISIBLE := by
  have hinit : StatusOk prepInit := fun _ _ _ => Or.inl rfl
  have hrun : StatusOk (runPrepare thr numKpts cams) :=
    foldl_preserve StatusOk _
      (fun s a hs => prepCamStep_statusOk thr numKpts s a hs)
      cams.enum prepInit hinit
  have h := hrun m c f
  have h2 : L3D_STATUS_LABELED = 2 := rfl
  have h3 : L3D_STATUS_INVISIBLE = 3 := rfl
  refine ⟨h, ?_, ?_⟩
  · rw [h2]
    omega
  · rw [h3]
    omega

end Label3D
